import Mathlib

/-!
Verification of the SahAI agent against its natural-language specification.

The definitions below are a shallow embedding of the Python sources:
  * `Memory.set`, `Memory.resolve_contradiction`   — src/agent/memory.py
  * `checkSchemeEligibility`                        — src/agent/tools.py
  * `evaluateQuality`                               — src/agent/agentic_agent.py (_evaluate)
  * `analyzeIntent`                                 — src/agent/agentic_agent.py (_analyze_intent)
  * `searchSchemes`                                 — src/data/scheme_database.py
  * `shouldEscalate`, `handleError`                 — src/agent/failure_handler.py, agentic_agent.py

Python `float` arithmetic is modelled with `ℚ`, machine dictionaries with
association lists, and `time.time()` with explicit integer timestamps.
-/

/-- A Python value as stored in `Memory._data` and passed around in the
dictionaries of the agent (the sources only ever store `None`, ints,
strings and booleans in the fields the claims touch). -/
inductive PyVal where
  | none
  | int (n : Int)
  | str (s : String)
  | bool (b : Bool)
deriving DecidableEq

/-- Python truthiness (`if value:`) for the values above. -/
def PyVal.truthy : PyVal → Bool
  | .none => false
  | .int n => n != 0
  | .str s => !s.isEmpty
  | .bool b => b

/-- Association-list read, the model of `dict.__getitem__` / `dict.get`. -/
def getAssoc {α : Type} : List (String × α) → String → Option α
  | [], _ => Option.none
  | (k', v) :: rest, k => if k' = k then some v else getAssoc rest k

/-- `dict.get(key, default)`. -/
def lookupD {α : Type} (l : List (String × α)) (k : String) (d : α) : α :=
  (getAssoc l k).getD d

/-- Association-list write, the model of `dict.__setitem__`: replaces the
first binding of the key or appends a fresh one. -/
def setAssoc {α : Type} : List (String × α) → String → α → List (String × α)
  | [], k, v => [(k, v)]
  | (k', v') :: rest, k, v =>
      if k' = k then (k, v) :: rest else (k', v') :: setAssoc rest k v

/-- `Contradiction` record (memory.py lines 19-29).  The float timestamp is
elided: the pending queue is kept in insertion order, which is all the code
ever uses of it. -/
structure Contradiction where
  field : String
  old_value : PyVal
  new_value : PyVal
  contradiction_type : String
  resolved : Bool
  resolution : Option String
  user_explanation : Option String
deriving DecidableEq

/-- The `Contradiction(...)` constructions in `Memory.set` (memory.py lines
129-150): always a `VALUE_CONFLICT`, unresolved, with no resolution yet. -/
def mkValueConflict (key : String) (old_value new_value : PyVal) : Contradiction :=
  { field := key, old_value := old_value, new_value := new_value,
    contradiction_type := "value_conflict", resolved := false,
    resolution := Option.none, user_explanation := Option.none }

/-- `Memory.VALID_FIELDS` (memory.py lines 68-71). -/
def VALID_FIELDS : List String :=
  ["age", "income", "gender", "category", "state",
   "occupation", "disability", "bpl", "area", "name"]

/-- `Memory.STABLE_FIELDS` (memory.py line 74). -/
def STABLE_FIELDS : List String := ["age", "gender", "category", "disability"]

/-- `Memory.MUTABLE_FIELDS` (memory.py line 77). -/
def MUTABLE_FIELDS : List String := ["income", "state", "area", "occupation", "bpl"]

/-- `abs(old_value - value)` on the stored Python ints.  On non-int values
the Python code would raise `TypeError`; the claims only instantiate the
numeric fields (`income`, `age`) at ints, where this model is exact. -/
def pyAbsDiff (a b : PyVal) : Nat :=
  match a, b with
  | .int m, .int n => (m - n).natAbs
  | _, _ => 0

/-- The contradiction-detection ladder of `Memory.set` (memory.py lines
127-150), reached only when the stored value differs from the new one. -/
def detectContradiction (key : String) (old_value value : PyVal) : Option Contradiction :=
  if key ∈ STABLE_FIELDS then
    some (mkValueConflict key old_value value)
  else if key ∈ MUTABLE_FIELDS then
    if key = "income" ∧ pyAbsDiff old_value value > 50000 then
      some (mkValueConflict key old_value value)
    else if key = "age" ∧ pyAbsDiff old_value value > 1 then
      -- dead in the source: "age" is in STABLE_FIELDS, not MUTABLE_FIELDS
      some (mkValueConflict key old_value value)
    else Option.none
  else Option.none

/-- The per-session memory state (memory.py lines 79-103).  Conversation
history, session ids and the failure counters are elided: no claim touches
them. -/
structure Memory where
  data : List (String × PyVal)
  confirmed : List (String × Bool)
  field_history : List (String × List PyVal)
  contradictions : List Contradiction
  pending_contradictions : List Contradiction
deriving DecidableEq

/-- A fresh `Memory()`. -/
def Memory.empty : Memory :=
  { data := [], confirmed := [], field_history := [],
    contradictions := [], pending_contradictions := [] }

/-- `if key not in self._field_history: self._field_history[key] = FieldHistory(field=key)`
(memory.py lines 118-119). -/
def histInit (h : List (String × List PyVal)) (key : String) : List (String × List PyVal) :=
  if (getAssoc h key).isSome then h else setAssoc h key []

/-- `self._field_history[key].add(value, source)` (memory.py line 163). -/
def histAdd (h : List (String × List PyVal)) (key : String) (v : PyVal) :
    List (String × List PyVal) :=
  setAssoc h key (lookupD h key [] ++ [v])

/-- `Memory.set` (memory.py lines 107-166).  Returns the `(success,
contradiction)` pair together with the state after the call. -/
def Memory.set (m : Memory) (key : String) (value : PyVal) (confirmed : Bool) :
    Bool × Option Contradiction × Memory :=
  if key ∈ VALID_FIELDS then
    let hist0 := histInit m.field_history key
    let contradiction : Option Contradiction :=
      match getAssoc m.data key with
      | some old =>
          if old ≠ PyVal.none ∧ old ≠ value then detectContradiction key old value
          else Option.none
      | Option.none => Option.none
    let contradictions' := m.contradictions ++ contradiction.toList
    if contradiction.isSome = true ∧ lookupD m.confirmed key false = true then
      -- confirmed data being changed: queue it, reject the write
      (false, contradiction,
        { m with field_history := hist0,
                 contradictions := contradictions',
                 pending_contradictions := m.pending_contradictions ++ contradiction.toList })
    else
      (true, contradiction,
        { m with data := setAssoc m.data key value,
                 confirmed := setAssoc m.confirmed key confirmed,
                 field_history := histAdd hist0 key value,
                 contradictions := contradictions' })
  else (false, Option.none, m)

/-- The scan of `resolve_contradiction`'s loop (memory.py lines 170-171):
the first pending contradiction for the field that is not resolved,
together with the queue with that entry removed. -/
def resolveFirst : List Contradiction → String → Option (Contradiction × List Contradiction)
  | [], _ => Option.none
  | c :: rest, f =>
      if c.field = f ∧ c.resolved = false then some (c, rest)
      else
        match resolveFirst rest f with
        | some (c', rest') => some (c', c :: rest')
        | Option.none => Option.none

/-- The source mutates the found `Contradiction` object in place, which is
aliased inside `self._contradictions`; this updates the first structurally
equal entry of that list the same way. -/
def markResolved : List Contradiction → Contradiction → Contradiction → List Contradiction
  | [], _, _ => []
  | x :: xs, c, rc => if x = c then rc :: xs else x :: markResolved xs c rc

/-- `Memory.resolve_contradiction` (memory.py lines 168-183). -/
def Memory.resolve_contradiction (m : Memory) (f : String) (use_new_value : Bool)
    (user_explanation : String) : Bool × Memory :=
  match resolveFirst m.pending_contradictions f with
  | Option.none => (false, m)
  | some (c, rest) =>
      let resolvedC : Contradiction :=
        { c with resolved := true,
                 resolution := some (if use_new_value then "used_new" else "kept_old"),
                 user_explanation := some user_explanation }
      (true,
        { m with data := if use_new_value then setAssoc m.data f c.new_value else m.data,
                 pending_contradictions := rest,
                 confirmed := setAssoc m.confirmed f true,
                 contradictions := markResolved m.contradictions c resolvedC })

/-! ### Strings: Python `str.lower` and substring containment -/

/-- `s.lower()` as a character list.  `Char.toLower` lowercases ASCII;
Devanagari has no case, so on the repository's inputs this matches Python. -/
def lowerChars (s : String) : List Char := s.data.map Char.toLower

/-- Python's `needle in haystack` on strings: contiguous substring. -/
def containsSub (needle : String) (haystack : List Char) : Bool :=
  decide (List.IsInfix needle.data haystack)

/-! ### Eligibility engine (src/agent/tools.py, `_check_scheme_eligibility`) -/

/-- The eligibility rules of one catalog entry (`scheme.eligibility`, a JSON
dict).  Both key spellings seen by the source are kept; a key that is absent
is `none`.  (A key stored with value `None` is not distinguished from an
absent one: the catalog never does that.) -/
structure SchemeRules where
  age_min : Option Int
  min_age : Option Int
  age_max : Option Int
  max_age : Option Int
  income_max : Option Int
  max_income : Option Int
  gender : Option String
  categories : Option (List String)
  bpl : Option Bool
deriving DecidableEq

/-- The fact map handed to the engine (`user_data`); an absent fact is `none`. -/
structure UserData where
  age : Option Int
  income : Option Int
  gender : Option String
  category : Option String
  bpl : Option Bool
deriving DecidableEq

/-- Python's `rules.get(a) or rules.get(b)`: the first value if truthy
(nonzero), else the second. -/
def pyOr (a b : Option Int) : Option Int :=
  match a with
  | some v => if v ≠ 0 then some v else b
  | Option.none => b

/-- One criterion block of `_check_scheme_eligibility` (tools.py lines
159-219): when the rule is declared, a known fact is tested (appending to
`met_criteria` or `issues`), an unknown fact is appended to
`unknown_criteria`.  `pass?` returns `none` where Python would raise a
`TypeError` (comparison against a missing alias value); the whole check is
then `none`. -/
def critBlockE {α : Type} :
    Bool → Option α → (α → Option Bool) → String → String →
    Option (List String × List String × List String)
  | false, _, _, _, _ => some ([], [], [])
  | true, Option.none, _, _, fieldName => some ([], [], [fieldName])
  | true, some v, pass?, label, _ =>
      match pass? v with
      | some true => some ([label ++ " met"], [], [])
      | some false => some ([], [label ++ " failed"], [])
      | Option.none => Option.none

/-- The result dict of `_check_scheme_eligibility` (tools.py lines 231-240);
scheme names and benefit text are elided, the Hindi messages are abstracted
to criterion labels (no claim reads their wording). -/
structure CheckResult where
  status : String
  met_criteria : List String
  issues : List String
  unknown_criteria : List String
deriving DecidableEq

/-- The aggregation step of `_check_scheme_eligibility` (tools.py lines
221-240): the three lists collected by the six blocks and the status
ladder. -/
def assembleCheck (t1 t2 t3 t4 t5 t6 : List String × List String × List String) :
    CheckResult :=
  let met := t1.1 ++ t2.1 ++ t3.1 ++ t4.1 ++ t5.1 ++ t6.1
  let issues := t1.2.1 ++ t2.2.1 ++ t3.2.1 ++ t4.2.1 ++ t5.2.1 ++ t6.2.1
  let unknown := t1.2.2 ++ t2.2.2 ++ t3.2.2 ++ t4.2.2 ++ t5.2.2 ++ t6.2.2
  let status :=
    if issues ≠ [] then "not_eligible"
    else if unknown ≠ [] ∧ met = [] then "partial"
    else if unknown ≠ [] then "partial"
    else "eligible"
  { status := status, met_criteria := met, issues := issues,
    unknown_criteria := unknown }

/-- `_check_scheme_eligibility` (tools.py lines 152-240): the six criterion
blocks in source order, then the aggregation. -/
def checkSchemeEligibility (r : SchemeRules) (u : UserData) : Option CheckResult :=
  match critBlockE (r.age_min.isSome || r.min_age.isSome) u.age
      (fun a => (pyOr r.age_min r.min_age).map (fun mn => decide (mn ≤ a))) "age_min" "age" with
  | Option.none => Option.none
  | some t1 =>
  match critBlockE (r.age_max.isSome || r.max_age.isSome) u.age
      (fun a => (pyOr r.age_max r.max_age).map (fun mx => decide (a ≤ mx))) "age_max" "age" with
  | Option.none => Option.none
  | some t2 =>
  match critBlockE (r.income_max.isSome || r.max_income.isSome) u.income
      (fun i => (pyOr r.income_max r.max_income).map (fun mx => decide (i ≤ mx))) "income_max" "income" with
  | Option.none => Option.none
  | some t3 =>
  match critBlockE r.gender.isSome u.gender
      (fun g => r.gender.map (fun rg => decide (lowerChars g = lowerChars rg))) "gender" "gender" with
  | Option.none => Option.none
  | some t4 =>
  match critBlockE r.categories.isSome u.category
      (fun c => r.categories.map (fun cs => decide (c ∈ cs))) "categories" "category" with
  | Option.none => Option.none
  | some t5 =>
  match critBlockE (r.bpl == some true) u.bpl (fun b => some b) "bpl" "bpl" with
  | Option.none => Option.none
  | some t6 => some (assembleCheck t1 t2 t3 t4 t5 t6)

/-- The six criteria `_check_scheme_eligibility` knows. -/
inductive Criterion where
  | ageMin | ageMax | incomeMax | genderC | categoriesC | bplC
deriving DecidableEq

/-- A criterion is declared by the entry (the spec's "declared criterion"). -/
def declaredC (r : SchemeRules) : Criterion → Bool
  | .ageMin => r.age_min.isSome || r.min_age.isSome
  | .ageMax => r.age_max.isSome || r.max_age.isSome
  | .incomeMax => r.income_max.isSome || r.max_income.isSome
  | .genderC => r.gender.isSome
  | .categoriesC => r.categories.isSome
  | .bplC => r.bpl == some true

/-- A declared criterion is checked against a known fact and fails. -/
def critFails (r : SchemeRules) (u : UserData) : Criterion → Prop
  | .ageMin => declaredC r .ageMin = true ∧
      ∃ a, u.age = some a ∧ ∃ mn, pyOr r.age_min r.min_age = some mn ∧ a < mn
  | .ageMax => declaredC r .ageMax = true ∧
      ∃ a, u.age = some a ∧ ∃ mx, pyOr r.age_max r.max_age = some mx ∧ mx < a
  | .incomeMax => declaredC r .incomeMax = true ∧
      ∃ i, u.income = some i ∧ ∃ mx, pyOr r.income_max r.max_income = some mx ∧ mx < i
  | .genderC => declaredC r .genderC = true ∧
      ∃ g, u.gender = some g ∧ ∃ rg, r.gender = some rg ∧ lowerChars g ≠ lowerChars rg
  | .categoriesC => declaredC r .categoriesC = true ∧
      ∃ c, u.category = some c ∧ ∃ cs, r.categories = some cs ∧ c ∉ cs
  | .bplC => declaredC r .bplC = true ∧ u.bpl = some false

/-- A declared criterion is unknown for lack of the needed fact. -/
def critUnknown (r : SchemeRules) (u : UserData) : Criterion → Prop
  | .ageMin => declaredC r .ageMin = true ∧ u.age = Option.none
  | .ageMax => declaredC r .ageMax = true ∧ u.age = Option.none
  | .incomeMax => declaredC r .incomeMax = true ∧ u.income = Option.none
  | .genderC => declaredC r .genderC = true ∧ u.gender = Option.none
  | .categoriesC => declaredC r .categoriesC = true ∧ u.category = Option.none
  | .bplC => declaredC r .bplC = true ∧ u.bpl = Option.none

/-- A criterion is checked against a known fact and satisfied. -/
def critMet (r : SchemeRules) (u : UserData) : Criterion → Prop
  | .ageMin => ∃ a, u.age = some a ∧ ∃ mn, pyOr r.age_min r.min_age = some mn ∧ mn ≤ a
  | .ageMax => ∃ a, u.age = some a ∧ ∃ mx, pyOr r.age_max r.max_age = some mx ∧ a ≤ mx
  | .incomeMax => ∃ i, u.income = some i ∧ ∃ mx, pyOr r.income_max r.max_income = some mx ∧ i ≤ mx
  | .genderC => ∃ g, u.gender = some g ∧ ∃ rg, r.gender = some rg ∧ lowerChars g = lowerChars rg
  | .categoriesC => ∃ c, u.category = some c ∧ ∃ cs, r.categories = some cs ∧ c ∈ cs
  | .bplC => u.bpl = some true

/-! ### Evaluator quality score (src/agent/agentic_agent.py, `_evaluate`) -/

/-- `ExecutionResult` (state_machine.py lines 76-82); `data` and `error` are
elided, no claim reads them. -/
structure ExecutionResult where
  tool_name : String
  success : Bool
  needs_more_info : List String
deriving DecidableEq

/-- The slice of `ExecutionPlan` (state_machine.py lines 56-72) that
`_evaluate`'s quality computation reads. -/
structure ExecutionPlan where
  required_info : List String
  available_info : List (String × PyVal)
deriving DecidableEq

/-- `ExecutionPlan.__post_init__` (state_machine.py lines 68-72):
`missing_info` is the required info whose key is absent from
`available_info`. -/
def ExecutionPlan.missing_info (p : ExecutionPlan) : List String :=
  p.required_info.filter (fun i => (getAssoc p.available_info i).isNone)

/-- Truthiness of `available.get(field)` (agentic_agent.py lines 405-412). -/
def truthyAt (avail : List (String × PyVal)) (k : String) : Bool :=
  (lookupD avail k PyVal.none).truthy

/-- The `continue` filter of `_evaluate` (agentic_agent.py lines 403-413):
drop a missing field that is actually available (and truthy). -/
def keepMissing (avail : List (String × PyVal)) (f : String) : Bool :=
  if f = "age" ∧ truthyAt avail "age" = true then false
  else if f = "income" ∧ truthyAt avail "income" = true then false
  else if f = "gender" ∧ truthyAt avail "gender" = true then false
  else if f = "category" ∧ truthyAt avail "category" = true then false
  else true

/-- `all_missing` before the availability filter (agentic_agent.py lines
395-399): the tools' `needs_more_info` lists, then `plan.missing_info`,
deduplicated (`list(set(..))`; only length and membership are consumed, so
first-occurrence order stands in for the arbitrary set order). -/
def allMissingRaw (p : ExecutionPlan) (results : List ExecutionResult) : List String :=
  ((results.map (fun r => r.needs_more_info)).flatten ++ p.missing_info).eraseDups

/-- `all_missing` as used by the quality score (after the filter). -/
def actuallyMissing (p : ExecutionPlan) (results : List ExecutionResult) : List String :=
  (allMissingRaw p results).filter (keepMissing p.available_info)

/-- The quality score of `_evaluate` (agentic_agent.py lines 436-442). -/
def evaluateQuality (p : ExecutionPlan) (results : List ExecutionResult) : ℚ :=
  if results.isEmpty then 1/2  -- "No tools executed"
  else
    let success_rate : ℚ := ((results.filter (fun r => r.success)).length : ℚ) / (results.length : ℚ)
    let info_completeness : ℚ :=
      1 - ((actuallyMissing p results).length : ℚ) / (max p.required_info.length 1 : ℚ)
    success_rate * (6/10) + info_completeness * (4/10)

/-- The claim's reading of the quality formula, for comparison: the 0.5 for
"zero tools ran" replaces only the success-rate term, and the weighted
missing-info term is still added. -/
def claimQualityC5 (p : ExecutionPlan) (results : List ExecutionResult) : ℚ :=
  (6/10) * (if results.isEmpty then 1/2
            else ((results.filter (fun r => r.success)).length : ℚ) / (results.length : ℚ))
  + (4/10) * (1 - ((actuallyMissing p results).length : ℚ) / (max p.required_info.length 1 : ℚ))

/-! ### Intent analysis (src/agent/agentic_agent.py, `_analyze_intent`) -/

/-- The intent enum (state_machine.py lines 40-52). -/
inductive IntentType where
  | greeting | scheme_inquiry | eligibility_check | application_help
  | document_info | general_question | provide_info | clarification
  | correction | farewell | unknown
deriving DecidableEq

/-- Python `text.split()`: whitespace-separated words, empties dropped. -/
def splitWords (cs : List Char) : List (List Char) :=
  (cs.splitOnP Char.isWhitespace).filter (fun w => !w.isEmpty)

/-- Keyword families of `_analyze_intent` (agentic_agent.py lines 181-216). -/
def greeting_words : List String := ["नमस्ते", "hello", "hi", "हेलो", "नमस्कार", "प्रणाम"]

def farewell_words : List String := ["धन्यवाद", "thank", "bye", "अलविदा", "शुक्रिया"]

def eligibility_words : List String := ["पात्र", "eligible", "मिल सकत", "योग्य", "क्या मुझे", "क्या मैं"]

def scheme_words : List String := ["योजना", "scheme", "स्कीम", "कौन सी", "बताओ", "जानकारी", "क्या है"]

def application_words : List String := ["आवेदन", "apply", "कैसे करें", "कहां करें", "रजिस्टर"]

def document_words : List String := ["दस्तावेज़", "document", "कागज़", "प्रमाण पत्र"]

def correction_words : List String := ["गलत", "सही", "correction", "नहीं", "दरअसल", "असल में"]

/-- `_analyze_intent` (agentic_agent.py lines 176-220). -/
def analyzeIntent (user_input : String) (extracted_data : List (String × PyVal)) : IntentType :=
  let text := lowerChars user_input
  if greeting_words.any (fun w => containsSub w text) ∧ (splitWords text).length < 5 then
    .greeting
  else if farewell_words.any (fun w => containsSub w text) then .farewell
  else if eligibility_words.any (fun w => containsSub w text) then .eligibility_check
  else if scheme_words.any (fun w => containsSub w text) then .scheme_inquiry
  else if application_words.any (fun w => containsSub w text) then .application_help
  else if document_words.any (fun w => containsSub w text) then .document_info
  else if extracted_data ≠ [] then .provide_info
  else if correction_words.any (fun w => containsSub w text) then .correction
  else .general_question

/-! ### Catalog search (src/data/scheme_database.py, `search_schemes`) -/

/-- One catalog entry as `search_schemes` reads it: `name.get("hi", "")`,
`name.get("en", "")`, tags, category (and the eligibility rules, carried for
completeness).  Description, benefit, documents, urls are elided. -/
structure Scheme where
  id : String
  name_hi : String
  name_en : String
  category : String
  tags : List String
  eligibility : SchemeRules
deriving DecidableEq

/-- `containsSub` with the query already lowered to characters. -/
def containsSubL (needle haystack : List Char) : Bool :=
  decide (List.IsInfix needle haystack)

/-- The per-entry score of `search_schemes` (scheme_database.py lines
98-113): +10 per matching name language, +5 per matching tag, +3 for a
matching category. -/
def schemeScore (ql : List Char) (s : Scheme) : Nat :=
  (if containsSubL ql (lowerChars s.name_hi) then 10 else 0)
  + (if containsSubL ql (lowerChars s.name_en) then 10 else 0)
  + 5 * (s.tags.filter (fun t => containsSubL ql (lowerChars t))).length
  + (if containsSubL ql (lowerChars s.category) then 3 else 0)

/-- `search_schemes` (scheme_database.py lines 92-119): keep entries with a
positive score, stable-sort descending by score (`list.sort` is stable, so
ties keep catalog order), return the schemes. -/
def searchSchemes (query : String) (schemes : List Scheme) : List Scheme :=
  let ql := lowerChars query
  let results := schemes.filterMap (fun s =>
    let score := schemeScore ql s
    if score > 0 then some (score, s) else Option.none)
  (results.insertionSort (fun a b => b.1 ≤ a.1)).map (fun x => x.2)

/-! ### Failure escalation (src/agent/failure_handler.py, agentic_agent.py) -/

/-- One entry of `FailureHandler._failure_history`: its type and the
`time.time()` timestamp (seconds, as an integer). -/
structure FailureRecord where
  failure_type : String
  timestamp : Int
deriving DecidableEq

/-- `FailureHandler` state: the failure history. -/
structure FailureHandlerState where
  failure_history : List FailureRecord
deriving DecidableEq

/-- `FailureHandler.should_escalate` (failure_handler.py lines 343-349):
at least 5 failures of any category in the trailing 5-minute window. -/
def shouldEscalate (st : FailureHandlerState) (now : Int) : Bool :=
  decide (5 ≤ (st.failure_history.filter (fun f => now - f.timestamp < 300)).length)

/-- `FailureHandler.get_escalation_message` (failure_handler.py lines
351-360): the fixed message with alternative contact channels. -/
def escalationMessage : String :=
  "लगता है कि आपको समस्या हो रही है। हेल्पलाइन: 1800-111-555 (टोल-फ्री), नज़दीकी CSC केंद्र पर जाएं, ग्राम पंचायत कार्यालय से संपर्क करें। क्या मैं किसी और तरह से मदद कर सकता हूं?"

/-- The two `SYSTEM_ERROR` recovery messages (failure_handler.py lines
193-204): an apology-retry prompt, then the alternative helpline.  (The
strategy lists of the other failure types are elided: `_handle_error` only
ever requests `SYSTEM_ERROR`.) -/
def systemErrorStrategies : List String :=
  ["क्षमा करें, कुछ गड़बड़ हुई। कृपया दोबारा प्रयास करें।",
   "आप हेल्पलाइन 1800-111-555 पर भी कॉल कर सकते हैं।"]

/-- `FailureHandler.handle_failure` (failure_handler.py lines 215-256) for
`SYSTEM_ERROR`: count same-type failures among the last 5 history entries,
append the new record, pick the strategy at `min(attempts, len-1)`. -/
def handleFailure (st : FailureHandlerState) (now : Int) (ftype : String) :
    String × FailureHandlerState :=
  let recent_same :=
    ((st.failure_history.drop (st.failure_history.length - 5)).filter
      (fun f => f.failure_type = ftype)).length
  let st' : FailureHandlerState :=
    { failure_history := st.failure_history ++ [{ failure_type := ftype, timestamp := now }] }
  let idx := min recent_same (systemErrorStrategies.length - 1)
  ((systemErrorStrategies.get? idx).getD "", st')

/-- `AgenticAgent._handle_error` (agentic_agent.py lines 685-697): escalate
when `should_escalate`, otherwise run the normal `SYSTEM_ERROR` recovery.
(The context error counters are elided.) -/
def handleError (st : FailureHandlerState) (now : Int) : String × FailureHandlerState :=
  if shouldEscalate st now then (escalationMessage, st)
  else handleFailure st now "system_error"

/-! ### Helper lemmas: association lists and `Memory.set` -/

theorem getAssoc_setAssoc_self {α : Type} (l : List (String × α)) (k : String) (v : α) :
    getAssoc (setAssoc l k v) k = some v := by
  induction l with
  | nil => simp [setAssoc, getAssoc]
  | cons hd tl ih =>
      by_cases h : hd.1 = k
      · simp [setAssoc, getAssoc, h]
      · cases hd
        simp only [setAssoc]
        rw [if_neg h]
        simp only [getAssoc]
        rw [if_neg h]
        exact ih

/-- `Memory.set` on the rejection path (memory.py lines 155-158): detected
contradiction on confirmed data. -/
theorem set_rejects (m : Memory) (key : String) (value : PyVal) (conf : Bool)
    (old : PyVal) (c : Contradiction)
    (hv : key ∈ VALID_FIELDS)
    (hold : getAssoc m.data key = some old)
    (hne : old ≠ PyVal.none ∧ old ≠ value)
    (hdet : detectContradiction key old value = some c)
    (hconf : lookupD m.confirmed key false = true) :
    Memory.set m key value conf =
      (false, some c,
        { m with field_history := histInit m.field_history key,
                 contradictions := m.contradictions ++ [c],
                 pending_contradictions := m.pending_contradictions ++ [c] }) := by
  simp only [Memory.set, if_pos hv, hold, if_pos hne, hdet]
  rw [if_pos ⟨rfl, hconf⟩]
  simp [Option.toList]

/-- `Memory.set` when the new value equals the stored one: no contradiction
is even considered, the write succeeds (memory.py lines 123, 160-166). -/
theorem set_accepts_same (m : Memory) (key : String) (value : PyVal) (conf : Bool)
    (hv : key ∈ VALID_FIELDS)
    (hold : getAssoc m.data key = some value) :
    Memory.set m key value conf =
      (true, Option.none,
        { m with data := setAssoc m.data key value,
                 confirmed := setAssoc m.confirmed key conf,
                 field_history := histAdd (histInit m.field_history key) key value }) := by
  have hcond : ¬ (value ≠ PyVal.none ∧ value ≠ value) := by simp
  simp only [Memory.set, if_pos hv, hold, if_neg hcond]
  rw [if_neg (by simp)]
  simp [Option.toList]

/-- `Memory.set` with a detected contradiction on unconfirmed data: the
contradiction is recorded but the write still succeeds (memory.py lines
152-166). -/
theorem set_accepts_contradiction (m : Memory) (key : String) (value : PyVal) (conf : Bool)
    (old : PyVal) (c : Contradiction)
    (hv : key ∈ VALID_FIELDS)
    (hold : getAssoc m.data key = some old)
    (hne : old ≠ PyVal.none ∧ old ≠ value)
    (hdet : detectContradiction key old value = some c)
    (hconf : lookupD m.confirmed key false = false) :
    Memory.set m key value conf =
      (true, some c,
        { m with data := setAssoc m.data key value,
                 confirmed := setAssoc m.confirmed key conf,
                 field_history := histAdd (histInit m.field_history key) key value,
                 contradictions := m.contradictions ++ [c] }) := by
  simp only [Memory.set, if_pos hv, hold, if_pos hne, hdet]
  rw [if_neg (by simp [hconf])]
  simp [Option.toList]

/-- `Memory.set` when no contradiction is detected on a differing value. -/
theorem set_accepts_nodetect (m : Memory) (key : String) (value : PyVal) (conf : Bool)
    (old : PyVal)
    (hv : key ∈ VALID_FIELDS)
    (hold : getAssoc m.data key = some old)
    (hdet : detectContradiction key old value = Option.none) :
    Memory.set m key value conf =
      (true, Option.none,
        { m with data := setAssoc m.data key value,
                 confirmed := setAssoc m.confirmed key conf,
                 field_history := histAdd (histInit m.field_history key) key value }) := by
  by_cases hne : old ≠ PyVal.none ∧ old ≠ value
  · simp only [Memory.set, if_pos hv, hold, if_pos hne, hdet]
    rw [if_neg (by simp)]
    simp [Option.toList]
  · simp only [Memory.set, if_pos hv, hold, if_neg hne]
    rw [if_neg (by simp)]
    simp [Option.toList]

/-- Stable fields raise a value conflict on any differing value
(memory.py lines 127-134). -/
theorem detect_stable (key : String) (old value : PyVal) (h : key ∈ STABLE_FIELDS) :
    detectContradiction key old value = some (mkValueConflict key old value) := by
  simp [detectContradiction, h]

/-- The income tolerance (memory.py line 137). -/
theorem detect_income (a b : Int) :
    detectContradiction "income" (.int a) (.int b) =
      if 50000 < (a - b).natAbs then some (mkValueConflict "income" (.int a) (.int b))
      else Option.none := by
  have h1 : "income" ∉ STABLE_FIELDS := by decide
  have h2 : "income" ∈ MUTABLE_FIELDS := by decide
  simp only [detectContradiction, if_neg h1, if_pos h2]
  by_cases h : 50000 < (a - b).natAbs
  · rw [if_pos ⟨by trivial, by simpa [pyAbsDiff] using h⟩, if_pos h]
  · rw [if_neg (fun hc => h (by simpa [pyAbsDiff] using hc.2)),
        if_neg (fun hc => absurd hc.1 (by decide)), if_neg h]

/-! ### Claims C1, C2, C3, C10 — memory writes and contradictions -/

/-- C1: for every stable field (age, gender, category, disability) whose
stored value is confirmed, a write of a different value is rejected, the
stored value and its confirmed flag are left unchanged, and exactly one new
unresolved contradiction recording the old and the new value is appended to
the pending queue. -/
theorem C1_stable_confirmed_write_rejected (m : Memory) (key : String)
    (old value : PyVal) (conf : Bool)
    (hstable : key ∈ STABLE_FIELDS)
    (hold : getAssoc m.data key = some old)
    (hnn : old ≠ PyVal.none)
    (hne : old ≠ value)
    (hconf : lookupD m.confirmed key false = true) :
    (Memory.set m key value conf).1 = false
    ∧ (Memory.set m key value conf).2.2.data = m.data
    ∧ (Memory.set m key value conf).2.2.confirmed = m.confirmed
    ∧ (Memory.set m key value conf).2.2.pending_contradictions
        = m.pending_contradictions ++ [mkValueConflict key old value]
    ∧ (mkValueConflict key old value).resolved = false
    ∧ (mkValueConflict key old value).old_value = old
    ∧ (mkValueConflict key old value).new_value = value := by
  have hv : key ∈ VALID_FIELDS := by fin_cases hstable <;> decide
  rw [set_rejects m key value conf old (mkValueConflict key old value) hv hold
      ⟨hnn, hne⟩ (detect_stable key old value hstable) hconf]
  exact ⟨rfl, rfl, rfl, rfl, rfl, rfl, rfl⟩

theorem C1_stable_confirmed_write_rejected_witness :
    (getAssoc ((Memory.empty.set "gender" (PyVal.str "पुरुष") true).2.2).data "gender"
        = some (PyVal.str "पुरुष"))
    ∧ ((((Memory.empty.set "gender" (PyVal.str "पुरुष") true).2.2).set "gender"
        (PyVal.str "महिला") false).1 = false
      ∧ (((Memory.empty.set "gender" (PyVal.str "पुरुष") true).2.2).set "gender"
          (PyVal.str "महिला") false).2.2.data
          = ((Memory.empty.set "gender" (PyVal.str "पुरुष") true).2.2).data) := by
  refine ⟨by decide, ?_, ?_⟩
  · exact (C1_stable_confirmed_write_rejected
      ((Memory.empty.set "gender" (PyVal.str "पुरुष") true).2.2) "gender"
      (PyVal.str "पुरुष") (PyVal.str "महिला") false (by decide) (by decide)
      (by decide) (by decide) (by decide)).1
  · exact (C1_stable_confirmed_write_rejected
      ((Memory.empty.set "gender" (PyVal.str "पुरुष") true).2.2) "gender"
      (PyVal.str "पुरुष") (PyVal.str "महिला") false (by decide) (by decide)
      (by decide) (by decide) (by decide)).2.1

/-- C2 counterexample: `age` is a STABLE field in the code, so a confirmed
age written with a difference of exactly 1 — within the claimed mutable
tolerance — is rejected with a pending contradiction, not accepted. -/
theorem C2_counterexample :
    pyAbsDiff (PyVal.int 30) (PyVal.int 31) ≤ 1
    ∧ lookupD ((Memory.empty.set "age" (PyVal.int 30) true).2.2).confirmed "age" false = true
    ∧ (((Memory.empty.set "age" (PyVal.int 30) true).2.2).set "age" (PyVal.int 31) false).1 = false
    ∧ (((Memory.empty.set "age" (PyVal.int 30) true).2.2).set "age"
        (PyVal.int 31) false).2.2.pending_contradictions.length = 1 := by
  decide

/-- C2 amended: among the fields the code classes mutable, only income has
a tolerance: a write to a confirmed income within an absolute difference of
50000 succeeds with no contradiction, beyond 50000 it is rejected with
exactly one new pending contradiction; age is a stable field, so any
differing write to a confirmed age is rejected (the age-tolerance branch in
the source is unreachable). -/
theorem C2_amended (m : Memory) (old new : Int) (conf : Bool)
    (hold : getAssoc m.data "income" = some (PyVal.int old))
    (hconf : lookupD m.confirmed "income" false = true) :
    ((old - new).natAbs ≤ 50000 →
        (Memory.set m "income" (PyVal.int new) conf).1 = true
        ∧ (Memory.set m "income" (PyVal.int new) conf).2.1 = Option.none
        ∧ (Memory.set m "income" (PyVal.int new) conf).2.2.pending_contradictions
            = m.pending_contradictions)
    ∧ (50000 < (old - new).natAbs →
        (Memory.set m "income" (PyVal.int new) conf).1 = false
        ∧ (Memory.set m "income" (PyVal.int new) conf).2.2.data = m.data
        ∧ (Memory.set m "income" (PyVal.int new) conf).2.2.pending_contradictions
            = m.pending_contradictions
              ++ [mkValueConflict "income" (PyVal.int old) (PyVal.int new)])
    ∧ (∀ (m' : Memory) (a b : Int) (conf' : Bool),
        a ≠ b →
        getAssoc m'.data "age" = some (PyVal.int a) →
        lookupD m'.confirmed "age" false = true →
        (Memory.set m' "age" (PyVal.int b) conf').1 = false) := by
  refine ⟨?_, ?_, ?_⟩
  · intro hle
    by_cases heq : old = new
    · subst heq
      rw [set_accepts_same m "income" (PyVal.int old) conf (by decide) hold]
      exact ⟨rfl, rfl, rfl⟩
    · have hdet : detectContradiction "income" (PyVal.int old) (PyVal.int new)
          = Option.none := by
        rw [detect_income, if_neg (by omega)]
      rw [set_accepts_nodetect m "income" (PyVal.int new) conf (PyVal.int old)
          (by decide) hold hdet]
      exact ⟨rfl, rfl, rfl⟩
  · intro hgt
    have hne2 : PyVal.int old ≠ PyVal.int new := by
      intro hh
      injection hh with hh'
      omega
    have hdet := detect_income old new
    rw [if_pos hgt] at hdet
    rw [set_rejects m "income" (PyVal.int new) conf (PyVal.int old) _
        (by decide) hold ⟨by simp, hne2⟩ hdet hconf]
    exact ⟨rfl, rfl, rfl⟩
  · intro m' a b conf' hne hold' hconf'
    have hne2 : PyVal.int a ≠ PyVal.int b := by
      intro hh
      injection hh with hh'
      exact hne hh'
    rw [set_rejects m' "age" (PyVal.int b) conf' (PyVal.int a) _
        (by decide) hold' ⟨by simp, hne2⟩
        (detect_stable "age" (PyVal.int a) (PyVal.int b) (by decide)) hconf']

theorem C2_amended_witness :
    (((Memory.empty.set "income" (PyVal.int 100000) true).2.2).set "income"
        (PyVal.int 120000) false).1 = true
    ∧ (((Memory.empty.set "income" (PyVal.int 100000) true).2.2).set "income"
        (PyVal.int 160000) false).1 = false := by
  constructor
  · exact ((C2_amended ((Memory.empty.set "income" (PyVal.int 100000) true).2.2)
      100000 120000 false (by decide) (by decide)).1 (by omega)).1
  · exact ((C2_amended ((Memory.empty.set "income" (PyVal.int 100000) true).2.2)
      100000 160000 false (by decide) (by decide)).2.1 (by omega)).1

/-- C3 counterexample: with a pending contradiction on "age" (stored 30,
rejected write of 40), a repeat write of the stored value 30 is accepted —
the claim says no write at all is accepted while a contradiction is
pending.  And after resolving the contradiction (keeping the new value 40,
which also re-confirms the field), a fresh differing write of 50 is still
rejected — the claim says resolving immediately permits a new write. -/
theorem C3_counterexample :
    ((((Memory.empty.set "age" (PyVal.int 30) true).2.2).set "age"
        (PyVal.int 40) false).2.2.pending_contradictions.length = 1
    ∧ (((((Memory.empty.set "age" (PyVal.int 30) true).2.2).set "age"
        (PyVal.int 40) false).2.2).set "age" (PyVal.int 30) false).1 = true)
    ∧ (((((((Memory.empty.set "age" (PyVal.int 30) true).2.2).set "age"
        (PyVal.int 40) false).2.2).resolve_contradiction "age" true
          "").2).pending_contradictions.length = 0
    ∧ ((((((Memory.empty.set "age" (PyVal.int 30) true).2.2).set "age"
        (PyVal.int 40) false).2.2).resolve_contradiction "age" true
          "").2.set "age" (PyVal.int 50) false).1 = false) := by
  decide

theorem resolveFirst_eq (ps1 ps2 : List Contradiction) (c : Contradiction) (f : String)
    (hskip : ∀ d ∈ ps1, ¬(d.field = f ∧ d.resolved = false))
    (hc : c.field = f) (hr : c.resolved = false) :
    resolveFirst (ps1 ++ c :: ps2) f = some (c, ps1 ++ ps2) := by
  induction ps1 with
  | nil =>
      simp only [List.nil_append, resolveFirst]
      rw [if_pos ⟨hc, hr⟩]
  | cons d ds ih =>
      have hd := hskip d (by simp)
      have ih' := ih (fun x hx => hskip x (by simp [hx]))
      simp only [List.cons_append, resolveFirst]
      rw [if_neg hd]
      simp only [List.append_eq, ih']

/-- C3 amended: while a field has a pending contradiction, a materially
different write to the (still confirmed) field keeps being rejected, but a
write that repeats the currently stored value of any valid field is always
accepted, pending contradictions or not; `resolve_contradiction` resolves
exactly the oldest unresolved pending contradiction for the field, removes
it from the queue, marks the field confirmed, and stores the new value
exactly when `use_new_value` is passed. -/
theorem C3_amended :
    (∀ (m : Memory) (key : String) (v : PyVal) (conf : Bool),
        key ∈ VALID_FIELDS → getAssoc m.data key = some v →
        (Memory.set m key v conf).1 = true
        ∧ (Memory.set m key v conf).2.2.pending_contradictions
            = m.pending_contradictions)
    ∧ (∀ (m : Memory) (f : String) (useNew : Bool) (expl : String)
        (ps1 ps2 : List Contradiction) (c : Contradiction),
        m.pending_contradictions = ps1 ++ c :: ps2 →
        (∀ d ∈ ps1, ¬(d.field = f ∧ d.resolved = false)) →
        c.field = f → c.resolved = false →
        (Memory.resolve_contradiction m f useNew expl).1 = true
        ∧ (Memory.resolve_contradiction m f useNew expl).2.pending_contradictions
            = ps1 ++ ps2
        ∧ lookupD (Memory.resolve_contradiction m f useNew expl).2.confirmed f false = true
        ∧ (Memory.resolve_contradiction m f useNew expl).2.data
            = (if useNew = true then setAssoc m.data f c.new_value else m.data)) := by
  constructor
  · intro m key v conf hv hold
    rw [set_accepts_same m key v conf hv hold]
    exact ⟨rfl, rfl⟩
  · intro m f useNew expl ps1 ps2 c hsplit hskip hc hr
    have hfind : resolveFirst m.pending_contradictions f = some (c, ps1 ++ ps2) := by
      rw [hsplit]
      exact resolveFirst_eq ps1 ps2 c f hskip hc hr
    simp only [Memory.resolve_contradiction, hfind]
    refine ⟨by trivial, by trivial, ?_, ?_⟩
    · simp [lookupD, getAssoc_setAssoc_self]
    · cases useNew <;> simp

theorem C3_amended_witness :
    ((((((Memory.empty.set "age" (PyVal.int 30) true).2.2).set "age"
        (PyVal.int 40) false).2.2).set "age" (PyVal.int 30) false).1 = true
      ∧ ((((Memory.empty.set "age" (PyVal.int 30) true).2.2).set "age"
        (PyVal.int 40) false).2.2.set "age" (PyVal.int 30)
          false).2.2.pending_contradictions
        = (((Memory.empty.set "age" (PyVal.int 30) true).2.2).set "age"
            (PyVal.int 40) false).2.2.pending_contradictions)
    ∧ (((((Memory.empty.set "age" (PyVal.int 30) true).2.2).set "age"
        (PyVal.int 40) false).2.2.resolve_contradiction "age" true "ok").1 = true
      ∧ ((((Memory.empty.set "age" (PyVal.int 30) true).2.2).set "age"
        (PyVal.int 40) false).2.2.resolve_contradiction "age" true
          "ok").2.pending_contradictions = []) := by
  constructor
  · exact (C3_amended.1 (((Memory.empty.set "age" (PyVal.int 30) true).2.2).set "age"
      (PyVal.int 40) false).2.2 "age" (PyVal.int 30) false (by decide) (by decide))
  · refine ⟨?_, ?_⟩
    · exact (C3_amended.2 ((((Memory.empty.set "age" (PyVal.int 30) true).2.2).set "age"
        (PyVal.int 40) false).2.2) "age" true "ok" []
        [] (mkValueConflict "age" (PyVal.int 30) (PyVal.int 40)) (by decide)
        (by intro d hd; cases hd) (by decide) (by decide)).1
    · exact (C3_amended.2 ((((Memory.empty.set "age" (PyVal.int 30) true).2.2).set "age"
        (PyVal.int 40) false).2.2) "age" true "ok" []
        [] (mkValueConflict "age" (PyVal.int 30) (PyVal.int 40)) (by decide)
        (by intro d hd; cases hd) (by decide) (by decide)).2.1

/-- C10: every successful write overwrites the field's confirmed flag with
the caller-supplied `confirmed` argument (`False` when the caller omits it,
as the in-repo callers do); hence re-submitting the identical value for a
confirmed stable field succeeds, keeps the stored value, clears the
confirmed status, and a subsequent materially different write is then no
longer rejected. -/
theorem C10_confirmed_flag_overwritten :
    (∀ (m : Memory) (key : String) (v : PyVal) (conf : Bool),
        (Memory.set m key v conf).1 = true →
        lookupD (Memory.set m key v conf).2.2.confirmed key false = conf)
    ∧ (∀ (m : Memory) (key : String) (v v' : PyVal) (conf' : Bool),
        key ∈ STABLE_FIELDS →
        getAssoc m.data key = some v → v ≠ PyVal.none → v' ≠ v →
        lookupD m.confirmed key false = true →
        (Memory.set m key v false).1 = true
        ∧ getAssoc (Memory.set m key v false).2.2.data key = some v
        ∧ lookupD (Memory.set m key v false).2.2.confirmed key false = false
        ∧ ((Memory.set m key v false).2.2.set key v' conf').1 = true) := by
  constructor
  · intro m key v conf h
    by_cases hv : key ∈ VALID_FIELDS
    · simp only [Memory.set, if_pos hv] at h ⊢
      split at h
      · simp at h
      · next hcond =>
          rw [if_neg hcond]
          simp [lookupD, getAssoc_setAssoc_self]
    · simp [Memory.set, hv] at h
  · intro m key v v' conf' hstable hold hnn hne hconf
    have hv : key ∈ VALID_FIELDS := by fin_cases hstable <;> decide
    rw [set_accepts_same m key v false hv hold]
    refine ⟨rfl, getAssoc_setAssoc_self m.data key v, by simp [lookupD, getAssoc_setAssoc_self], ?_⟩
    rw [set_accepts_contradiction _ key v' conf' v
        (mkValueConflict key v v') hv
        (by simpa using getAssoc_setAssoc_self m.data key v)
        ⟨hnn, fun hh => hne hh.symm⟩
        (detect_stable key v v' hstable)
        (by simp [lookupD, getAssoc_setAssoc_self])]

theorem C10_confirmed_flag_overwritten_witness :
    ((((Memory.empty.set "gender" (PyVal.str "पुरुष") true).2.2).set "gender"
        (PyVal.str "पुरुष") false).1 = true
      ∧ lookupD (((Memory.empty.set "gender" (PyVal.str "पुरुष") true).2.2).set "gender"
          (PyVal.str "पुरुष") false).2.2.confirmed "gender" false = false)
    ∧ (((((Memory.empty.set "gender" (PyVal.str "पुरुष") true).2.2).set "gender"
        (PyVal.str "पुरुष") false).2.2.set "gender" (PyVal.str "महिला") false).1 = true) := by
  refine ⟨⟨?_, ?_⟩, ?_⟩
  · exact (C10_confirmed_flag_overwritten.2 ((Memory.empty.set "gender"
      (PyVal.str "पुरुष") true).2.2) "gender" (PyVal.str "पुरुष") (PyVal.str "महिला")
      false (by decide) (by decide) (by decide) (by decide) (by decide)).1
  · exact (C10_confirmed_flag_overwritten.2 ((Memory.empty.set "gender"
      (PyVal.str "पुरुष") true).2.2) "gender" (PyVal.str "पुरुष") (PyVal.str "महिला")
      false (by decide) (by decide) (by decide) (by decide) (by decide)).2.2.1
  · exact (C10_confirmed_flag_overwritten.2 ((Memory.empty.set "gender"
      (PyVal.str "पुरुष") true).2.2) "gender" (PyVal.str "पुरुष") (PyVal.str "महिला")
      false (by decide) (by decide) (by decide) (by decide) (by decide)).2.2.2

/-! ### Claims C5, C6 — the evaluator's quality score -/

/-- C5 counterexample: with zero tools run the code returns the flat 0.5,
not the claimed 0.6·0.5 + 0.4·(1 − 0/1) = 0.7. -/
theorem C5_counterexample :
    evaluateQuality { required_info := [], available_info := [] } [] = 1/2
    ∧ claimQualityC5 { required_info := [], available_info := [] } [] = 7/10
    ∧ evaluateQuality { required_info := [], available_info := [] } []
        ≠ claimQualityC5 { required_info := [], available_info := [] } [] := by
  have h1 : evaluateQuality { required_info := [], available_info := [] } [] = 1/2 := rfl
  have h2 : claimQualityC5 { required_info := [], available_info := [] } [] = 7/10 := by
    simp only [claimQualityC5]
    rw [show (actuallyMissing { required_info := [], available_info := [] }
        ([] : List ExecutionResult)).length = 0 from rfl]
    norm_num
  refine ⟨h1, h2, ?_⟩
  rw [h1, h2]
  norm_num

/-- C5 amended: when zero tools ran the quality score is the flat 0.5 (the
missing-info term is not added); otherwise it is
0.6·(succeeded/total) + 0.4·(1 − missingCount/max(requiredCount, 1)). -/
theorem C5_amended (p : ExecutionPlan) (results : List ExecutionResult) :
    (results = [] → evaluateQuality p results = 1/2)
    ∧ (results ≠ [] →
        evaluateQuality p results =
          ((results.filter (fun r => r.success)).length : ℚ) / (results.length : ℚ) * (6/10)
          + (1 - ((actuallyMissing p results).length : ℚ)
              / (max p.required_info.length 1 : ℚ)) * (4/10)) := by
  constructor
  · intro h
    subst h
    rfl
  · intro h
    simp only [evaluateQuality]
    rw [if_neg (by simp [h])]

theorem C5_amended_witness :
    evaluateQuality { required_info := [], available_info := [] } [] = 1/2
    ∧ evaluateQuality { required_info := [], available_info := [] }
        [{ tool_name := "scheme_retrieval", success := true, needs_more_info := [] }] = 1 := by
  constructor
  · exact (C5_amended { required_info := [], available_info := [] } []).1 rfl
  · have h := (C5_amended { required_info := [], available_info := [] }
      [{ tool_name := "scheme_retrieval", success := true, needs_more_info := [] }]).2
      (by decide)
    rw [h]
    rw [show (actuallyMissing { required_info := [], available_info := [] }
        [({ tool_name := "scheme_retrieval", success := true,
            needs_more_info := [] } : ExecutionResult)]).length = 0 from rfl]
    rw [show (List.filter (fun r => r.success)
        [({ tool_name := "scheme_retrieval", success := true,
            needs_more_info := [] } : ExecutionResult)]).length = 1 from rfl]
    norm_num

/-- C6: the quality score is specified to lie in [0, 1] (the dataclass
itself comments `quality_score: float  # 0-1`), but when the tools report
more missing fields than the plan listed as required the missing-info term
drops below zero: a single failed eligibility call needing age and income
against a plan with no required info yields −0.4. -/
theorem C6_quality_below_zero :
    evaluateQuality { required_info := [], available_info := [] }
      [{ tool_name := "eligibility_engine", success := false,
         needs_more_info := ["age", "income"] }] = -(2/5)
    ∧ evaluateQuality { required_info := [], available_info := [] }
      [{ tool_name := "eligibility_engine", success := false,
         needs_more_info := ["age", "income"] }] < 0 := by
  have h : evaluateQuality { required_info := [], available_info := [] }
      [{ tool_name := "eligibility_engine", success := false,
         needs_more_info := ["age", "income"] }] = -(2/5) := by
    simp only [evaluateQuality]
    rw [if_neg (by decide)]
    rw [show (List.filter (fun r => r.success)
        [({ tool_name := "eligibility_engine", success := false,
            needs_more_info := ["age", "income"] } : ExecutionResult)]).length = 0 from rfl]
    rw [show (actuallyMissing { required_info := [], available_info := [] }
        [({ tool_name := "eligibility_engine", success := false,
            needs_more_info := ["age", "income"] } : ExecutionResult)]).length = 2 from rfl]
    norm_num
  refine ⟨h, ?_⟩
  rw [h]
  norm_num

/-! ### Claims C7, C9 — intent priority and failure escalation -/

/-- C7 counterexample: the greeting branch additionally requires fewer than
5 words; an input that contains the greeting keyword "hello" but has 6
words and a farewell keyword is classified farewell, not greeting. -/
theorem C7_counterexample :
    containsSub "hello" (lowerChars "hello i want to thank you") = true
    ∧ analyzeIntent "hello i want to thank you" [] = IntentType.farewell := by
  decide

/-- C7 amended: intent classification is ordered keyword-family matching
with first match wins, but the greeting branch fires only when a greeting
keyword occurs AND the input has fewer than 5 whitespace-separated words;
under both conditions the intent is greeting regardless of which
lower-priority families also match. -/
theorem C7_amended (t : String) (ex : List (String × PyVal))
    (hg : greeting_words.any (fun w => containsSub w (lowerChars t)) = true)
    (hlen : (splitWords (lowerChars t)).length < 5) :
    analyzeIntent t ex = IntentType.greeting := by
  simp only [analyzeIntent]
  rw [if_pos ⟨hg, hlen⟩]

theorem C7_amended_witness :
    analyzeIntent "hello मुझे योजना बताओ" [] = IntentType.greeting := by
  exact C7_amended "hello मुझे योजना बताओ" [] (by decide) (by decide)

/-- C9: once at least 5 failures of any category sit in the trailing
5-minute window, the next `_handle_error` call returns the fixed escalation
message (not one of the SYSTEM_ERROR retry prompts) and does not touch the
failure history. -/
theorem C9_escalation (st : FailureHandlerState) (now : Int)
    (h : 5 ≤ (st.failure_history.filter (fun f => now - f.timestamp < 300)).length) :
    (handleError st now).1 = escalationMessage
    ∧ (handleError st now).2 = st
    ∧ (handleError st now).1 ∉ systemErrorStrategies := by
  have hesc : shouldEscalate st now = true := by
    simp only [shouldEscalate, decide_eq_true_eq]
    exact h
  simp only [handleError]
  rw [if_pos hesc]
  refine ⟨rfl, rfl, ?_⟩
  show escalationMessage ∉ systemErrorStrategies
  decide

theorem C9_escalation_witness :
    (handleError
      ⟨[⟨"stt_unclear", 100⟩, ⟨"stt_unclear", 110⟩, ⟨"system_error", 120⟩,
        ⟨"llm_error", 130⟩, ⟨"system_error", 140⟩]⟩ 200).1 = escalationMessage := by
  exact (C9_escalation
    ⟨[⟨"stt_unclear", 100⟩, ⟨"stt_unclear", 110⟩, ⟨"system_error", 120⟩,
      ⟨"llm_error", 130⟩, ⟨"system_error", 140⟩]⟩ 200 (by decide)).1

/-! ### Claim C8 — catalog search ranking -/

/-- An entry with no eligibility rules (used for concrete search catalogs). -/
def rulesNone : SchemeRules :=
  { age_min := Option.none, min_age := Option.none, age_max := Option.none,
    max_age := Option.none, income_max := Option.none, max_income := Option.none,
    gender := Option.none, categories := Option.none, bpl := Option.none }

/-- A catalog entry matching the query "kisan" only by its English name. -/
def schemeNameOnly : Scheme :=
  { id := "pm-kisan", name_hi := "", name_en := "pm kisan yojana",
    category := "कृषि", tags := [], eligibility := rulesNone }

/-- A catalog entry matching the query "kisan" only by its tags (three of
them). -/
def schemeTagsOnly : Scheme :=
  { id := "kcc", name_hi := "", name_en := "credit card",
    category := "कृषि", tags := ["kisan credit", "kisan loan", "kisan card"],
    eligibility := rulesNone }

/-- C8 counterexample: a name-only match scores 10, but a tag-only match
with three matching tags scores 15 and is ranked ahead of it — their other
score components (category) being equal — even though it sits later in the
catalog. -/
theorem C8_counterexample :
    schemeScore (lowerChars "kisan") schemeNameOnly = 10
    ∧ (schemeNameOnly.tags.filter
        (fun t => containsSubL (lowerChars "kisan") (lowerChars t))).length = 0
    ∧ containsSubL (lowerChars "kisan") (lowerChars schemeTagsOnly.name_hi) = false
    ∧ containsSubL (lowerChars "kisan") (lowerChars schemeTagsOnly.name_en) = false
    ∧ schemeScore (lowerChars "kisan") schemeTagsOnly = 15
    ∧ searchSchemes "kisan" [schemeNameOnly, schemeTagsOnly]
        = [schemeTagsOnly, schemeNameOnly] := by
  decide

/-- C8 amended: scores sum substring matches (name 10 per language, tag 5
each, category 3), the results are stable-sorted descending; an entry whose
score is at least 10 (any name match, nothing else needed) is ranked ahead
of an entry scoring exactly 5 (a single tag match and no other component).
A tag-only entry with two or more matching tags can tie or outrank a
name-only match, so the claim holds only for single-tag opponents. -/
theorem C8_amended (q : String) (schemes : List Scheme) (A B : Scheme)
    (hA : A ∈ schemes) (hB : B ∈ schemes)
    (hAs : 10 ≤ schemeScore (lowerChars q) A)
    (hBs : schemeScore (lowerChars q) B = 5) :
    ∃ i j : Fin (searchSchemes q schemes).length,
      (i : ℕ) < (j : ℕ)
      ∧ (searchSchemes q schemes).get i = A
      ∧ (searchSchemes q schemes).get j = B := by
  classical
  let r : ℕ × Scheme → ℕ × Scheme → Prop := fun a b => b.1 ≤ a.1
  let f : Scheme → Option (ℕ × Scheme) := fun s =>
    let score := schemeScore (lowerChars q) s
    if score > 0 then some (score, s) else Option.none
  let results := schemes.filterMap f
  let sorted := results.insertionSort r
  haveI : IsTotal (ℕ × Scheme) r := ⟨fun a b => Nat.le_total b.1 a.1⟩
  haveI : IsTrans (ℕ × Scheme) r := ⟨fun a b c h1 h2 => le_trans h2 h1⟩
  have hout : searchSchemes q schemes = sorted.map (fun x => x.2) := rfl
  have hfA : f A = some (schemeScore (lowerChars q) A, A) := by
    simp only [f]
    rw [if_pos (by omega)]
  have hfB : f B = some (5, B) := by
    simp only [f]
    rw [hBs]
    rfl
  have hmemA : (schemeScore (lowerChars q) A, A) ∈ sorted :=
    ((List.perm_insertionSort r results).mem_iff).mpr
      (List.mem_filterMap.mpr ⟨A, hA, hfA⟩)
  have hmemB : ((5 : ℕ), B) ∈ sorted :=
    ((List.perm_insertionSort r results).mem_iff).mpr
      (List.mem_filterMap.mpr ⟨B, hB, hfB⟩)
  have hsort : sorted.Sorted r := List.sorted_insertionSort r results
  obtain ⟨ia, hia⟩ := List.get_of_mem hmemA
  obtain ⟨ib, hib⟩ := List.get_of_mem hmemB
  have hne : ia ≠ ib := by
    intro h
    rw [h, hib] at hia
    have h5 : (5 : ℕ) = schemeScore (lowerChars q) A := congrArg Prod.fst hia
    omega
  have hlt : (ia : ℕ) < (ib : ℕ) := by
    rcases lt_trichotomy (ia : ℕ) (ib : ℕ) with h | h | h
    · exact h
    · exact absurd (Fin.ext h) hne
    · exfalso
      have hrel := hsort.rel_get_of_lt (show ib < ia from h)
      rw [hia, hib] at hrel
      have : schemeScore (lowerChars q) A ≤ 5 := hrel
      omega
  have hlen : (sorted.map (fun x => x.2)).length = sorted.length := List.length_map _ _
  rw [hout]
  refine ⟨⟨ia, by rw [hlen]; exact ia.2⟩, ⟨ib, by rw [hlen]; exact ib.2⟩, hlt, ?_, ?_⟩
  · rw [List.get_map]
    exact congrArg Prod.snd hia
  · rw [List.get_map]
    exact congrArg Prod.snd hib

/-- A catalog entry matching the query "kisan" by one single tag. -/
def schemeOneTag : Scheme :=
  { id := "one-tag", name_hi := "", name_en := "credit card",
    category := "वित्त", tags := ["kisan credit"], eligibility := rulesNone }

theorem C8_amended_witness :
    ∃ i j : Fin (searchSchemes "kisan" [schemeOneTag, schemeNameOnly]).length,
      (i : ℕ) < (j : ℕ)
      ∧ (searchSchemes "kisan" [schemeOneTag, schemeNameOnly]).get i = schemeNameOnly
      ∧ (searchSchemes "kisan" [schemeOneTag, schemeNameOnly]).get j = schemeOneTag := by
  exact C8_amended "kisan" [schemeOneTag, schemeNameOnly] schemeNameOnly schemeOneTag
    (by decide) (by decide) (by decide) (by decide)

/-! ### Claim C4 — eligibility trichotomy -/

/-- What one criterion block contributes: its `issues` entry is empty iff
the criterion does not fail on a known fact, its `unknown_criteria` entry
is empty iff the criterion is not declared-but-unknown, and both are empty
iff the criterion, where declared, is checked and satisfied. -/
theorem critBlockE_cases {α : Type} (gate : Bool) (known : Option α)
    (pass? : α → Option Bool) (label fieldName : String)
    (t : List String × List String × List String)
    (h : critBlockE gate known pass? label fieldName = some t) :
    (t.2.1 = [] ↔ ¬(gate = true ∧ ∃ v, known = some v ∧ pass? v = some false))
    ∧ (t.2.2 = [] ↔ ¬(gate = true ∧ known = Option.none))
    ∧ ((t.2.1 = [] ∧ t.2.2 = []) ↔
        (gate = true → ∃ v, known = some v ∧ pass? v = some true)) := by
  cases gate with
  | false =>
      simp only [critBlockE] at h
      obtain rfl := Option.some.inj h
      simp
  | true =>
      cases known with
      | none =>
          simp only [critBlockE] at h
          obtain rfl := Option.some.inj h
          simp
      | some v =>
          cases hp : pass? v with
          | none =>
              simp only [critBlockE, hp] at h
              cases h
          | some b =>
              cases b with
              | false =>
                  simp only [critBlockE, hp] at h
                  obtain rfl := Option.some.inj h
                  simp [hp]
              | true =>
                  simp only [critBlockE, hp] at h
                  obtain rfl := Option.some.inj h
                  simp [hp]

/-- C4: the engine returns not-eligible iff some declared criterion is
checked against a known fact and fails (regardless of unknowns),
partially-evaluable when nothing checked fails but at least one declared
criterion lacks its fact, and eligible exactly when every declared
criterion is checked and satisfied. -/
theorem C4_eligibility_trichotomy (r : SchemeRules) (u : UserData) (res : CheckResult)
    (hres : checkSchemeEligibility r u = some res) :
    ((∃ c, critFails r u c) → res.status = "not_eligible")
    ∧ ((∀ c, ¬ critFails r u c) → (∃ c, critUnknown r u c) → res.status = "partial")
    ∧ (res.status = "eligible" ↔ ∀ c, declaredC r c = true → critMet r u c) := by
  simp only [checkSchemeEligibility] at hres
  rcases h1 : critBlockE (r.age_min.isSome || r.min_age.isSome) u.age
      (fun a => (pyOr r.age_min r.min_age).map (fun mn => decide (mn ≤ a)))
      "age_min" "age" with _ | t1
  · rw [h1] at hres; exact Option.noConfusion hres
  rw [h1] at hres
  rcases h2 : critBlockE (r.age_max.isSome || r.max_age.isSome) u.age
      (fun a => (pyOr r.age_max r.max_age).map (fun mx => decide (a ≤ mx)))
      "age_max" "age" with _ | t2
  · rw [h2] at hres; exact Option.noConfusion hres
  rw [h2] at hres
  rcases h3 : critBlockE (r.income_max.isSome || r.max_income.isSome) u.income
      (fun i => (pyOr r.income_max r.max_income).map (fun mx => decide (i ≤ mx)))
      "income_max" "income" with _ | t3
  · rw [h3] at hres; exact Option.noConfusion hres
  rw [h3] at hres
  rcases h4 : critBlockE r.gender.isSome u.gender
      (fun g => r.gender.map (fun rg => decide (lowerChars g = lowerChars rg)))
      "gender" "gender" with _ | t4
  · rw [h4] at hres; exact Option.noConfusion hres
  rw [h4] at hres
  rcases h5 : critBlockE r.categories.isSome u.category
      (fun c => r.categories.map (fun cs => decide (c ∈ cs)))
      "categories" "category" with _ | t5
  · rw [h5] at hres; exact Option.noConfusion hres
  rw [h5] at hres
  rcases h6 : critBlockE (r.bpl == some true) u.bpl (fun b => some b) "bpl" "bpl" with _ | t6
  · rw [h6] at hres; exact Option.noConfusion hres
  rw [h6] at hres
  obtain rfl := (Option.some.inj hres).symm
  have E1 := critBlockE_cases _ _ _ _ _ _ h1
  have E2 := critBlockE_cases _ _ _ _ _ _ h2
  have E3 := critBlockE_cases _ _ _ _ _ _ h3
  have E4 := critBlockE_cases _ _ _ _ _ _ h4
  have E5 := critBlockE_cases _ _ _ _ _ _ h5
  have E6 := critBlockE_cases _ _ _ _ _ _ h6
  have hf1 : t1.2.1 = [] ↔ ¬ critFails r u .ageMin := by
    rw [E1.1]
    apply not_congr
    simp only [critFails, declaredC, Option.map_eq_some', decide_eq_false_iff_not, not_le]
  have hf2 : t2.2.1 = [] ↔ ¬ critFails r u .ageMax := by
    rw [E2.1]
    apply not_congr
    simp only [critFails, declaredC, Option.map_eq_some', decide_eq_false_iff_not, not_le]
  have hf3 : t3.2.1 = [] ↔ ¬ critFails r u .incomeMax := by
    rw [E3.1]
    apply not_congr
    simp only [critFails, declaredC, Option.map_eq_some', decide_eq_false_iff_not, not_le]
  have hf4 : t4.2.1 = [] ↔ ¬ critFails r u .genderC := by
    rw [E4.1]
    apply not_congr
    simp only [critFails, declaredC, Option.map_eq_some', decide_eq_false_iff_not, ne_eq]
  have hf5 : t5.2.1 = [] ↔ ¬ critFails r u .categoriesC := by
    rw [E5.1]
    apply not_congr
    simp only [critFails, declaredC, Option.map_eq_some', decide_eq_false_iff_not, not_le]
  have hf6 : t6.2.1 = [] ↔ ¬ critFails r u .bplC := by
    rw [E6.1]
    apply not_congr
    simp only [critFails, declaredC, Option.some.injEq, exists_eq_right]
  have hu1 : t1.2.2 = [] ↔ ¬ critUnknown r u .ageMin := by
    rw [E1.2.1]
    apply not_congr
    simp only [critUnknown, declaredC]
  have hu2 : t2.2.2 = [] ↔ ¬ critUnknown r u .ageMax := by
    rw [E2.2.1]
    apply not_congr
    simp only [critUnknown, declaredC]
  have hu3 : t3.2.2 = [] ↔ ¬ critUnknown r u .incomeMax := by
    rw [E3.2.1]
    apply not_congr
    simp only [critUnknown, declaredC]
  have hu4 : t4.2.2 = [] ↔ ¬ critUnknown r u .genderC := by
    rw [E4.2.1]
    apply not_congr
    simp only [critUnknown, declaredC]
  have hu5 : t5.2.2 = [] ↔ ¬ critUnknown r u .categoriesC := by
    rw [E5.2.1]
    apply not_congr
    simp only [critUnknown, declaredC]
  have hu6 : t6.2.2 = [] ↔ ¬ critUnknown r u .bplC := by
    rw [E6.2.1]
    apply not_congr
    simp only [critUnknown, declaredC]
  have hm1 : (t1.2.1 = [] ∧ t1.2.2 = []) ↔ (declaredC r .ageMin = true → critMet r u .ageMin) := by
    rw [E1.2.2]
    simp only [critMet, declaredC, Option.map_eq_some', decide_eq_true_eq]
  have hm2 : (t2.2.1 = [] ∧ t2.2.2 = []) ↔ (declaredC r .ageMax = true → critMet r u .ageMax) := by
    rw [E2.2.2]
    simp only [critMet, declaredC, Option.map_eq_some', decide_eq_true_eq]
  have hm3 : (t3.2.1 = [] ∧ t3.2.2 = []) ↔ (declaredC r .incomeMax = true → critMet r u .incomeMax) := by
    rw [E3.2.2]
    simp only [critMet, declaredC, Option.map_eq_some', decide_eq_true_eq]
  have hm4 : (t4.2.1 = [] ∧ t4.2.2 = []) ↔ (declaredC r .genderC = true → critMet r u .genderC) := by
    rw [E4.2.2]
    simp only [critMet, declaredC, Option.map_eq_some', decide_eq_true_eq]
  have hm5 : (t5.2.1 = [] ∧ t5.2.2 = []) ↔ (declaredC r .categoriesC = true → critMet r u .categoriesC) := by
    rw [E5.2.2]
    simp only [critMet, declaredC, Option.map_eq_some', decide_eq_true_eq]
  have hm6 : (t6.2.1 = [] ∧ t6.2.2 = []) ↔ (declaredC r .bplC = true → critMet r u .bplC) := by
    rw [E6.2.2]
    simp only [critMet, declaredC, Option.some.injEq, exists_eq_right]
  simp only [assembleCheck]
  have hIssues : (t1.2.1 ++ t2.2.1 ++ t3.2.1 ++ t4.2.1 ++ t5.2.1 ++ t6.2.1) = []
      ↔ (∀ c, ¬ critFails r u c) := by
    constructor
    · intro h c
      simp only [List.append_eq_nil] at h
      obtain ⟨⟨⟨⟨⟨a1, a2⟩, a3⟩, a4⟩, a5⟩, a6⟩ := h
      cases c
      exacts [hf1.mp a1, hf2.mp a2, hf3.mp a3, hf4.mp a4, hf5.mp a5, hf6.mp a6]
    · intro h
      simp only [List.append_eq_nil]
      exact ⟨⟨⟨⟨⟨hf1.mpr (h _), hf2.mpr (h _)⟩, hf3.mpr (h _)⟩,
             hf4.mpr (h _)⟩, hf5.mpr (h _)⟩, hf6.mpr (h _)⟩
  have hUnk : (t1.2.2 ++ t2.2.2 ++ t3.2.2 ++ t4.2.2 ++ t5.2.2 ++ t6.2.2) = []
      ↔ (∀ c, ¬ critUnknown r u c) := by
    constructor
    · intro h c
      simp only [List.append_eq_nil] at h
      obtain ⟨⟨⟨⟨⟨a1, a2⟩, a3⟩, a4⟩, a5⟩, a6⟩ := h
      cases c
      exacts [hu1.mp a1, hu2.mp a2, hu3.mp a3, hu4.mp a4, hu5.mp a5, hu6.mp a6]
    · intro h
      simp only [List.append_eq_nil]
      exact ⟨⟨⟨⟨⟨hu1.mpr (h _), hu2.mpr (h _)⟩, hu3.mpr (h _)⟩,
             hu4.mpr (h _)⟩, hu5.mpr (h _)⟩, hu6.mpr (h _)⟩
  have hMet : ((t1.2.1 ++ t2.2.1 ++ t3.2.1 ++ t4.2.1 ++ t5.2.1 ++ t6.2.1) = []
        ∧ (t1.2.2 ++ t2.2.2 ++ t3.2.2 ++ t4.2.2 ++ t5.2.2 ++ t6.2.2) = [])
      ↔ (∀ c, declaredC r c = true → critMet r u c) := by
    constructor
    · rintro ⟨hi, hu⟩ c
      simp only [List.append_eq_nil] at hi hu
      cases c
      exacts [hm1.mp ⟨hi.1.1.1.1.1, hu.1.1.1.1.1⟩, hm2.mp ⟨hi.1.1.1.1.2, hu.1.1.1.1.2⟩,
              hm3.mp ⟨hi.1.1.1.2, hu.1.1.1.2⟩, hm4.mp ⟨hi.1.1.2, hu.1.1.2⟩,
              hm5.mp ⟨hi.1.2, hu.1.2⟩, hm6.mp ⟨hi.2, hu.2⟩]
    · intro h
      have k1 := hm1.mpr (h .ageMin)
      have k2 := hm2.mpr (h .ageMax)
      have k3 := hm3.mpr (h .incomeMax)
      have k4 := hm4.mpr (h .genderC)
      have k5 := hm5.mpr (h .categoriesC)
      have k6 := hm6.mpr (h .bplC)
      simp only [List.append_eq_nil]
      exact ⟨⟨⟨⟨⟨⟨k1.1, k2.1⟩, k3.1⟩, k4.1⟩, k5.1⟩, k6.1⟩,
             ⟨⟨⟨⟨⟨k1.2, k2.2⟩, k3.2⟩, k4.2⟩, k5.2⟩, k6.2⟩⟩
  refine ⟨?_, ?_, ?_⟩
  · rintro ⟨c, hc⟩
    have hni : ¬ (t1.2.1 ++ t2.2.1 ++ t3.2.1 ++ t4.2.1 ++ t5.2.1 ++ t6.2.1) = [] :=
      fun hnil => (hIssues.mp hnil c) hc
    rw [if_pos hni]
  · intro hnof hunk
    have hi : (t1.2.1 ++ t2.2.1 ++ t3.2.1 ++ t4.2.1 ++ t5.2.1 ++ t6.2.1) = [] :=
      hIssues.mpr hnof
    obtain ⟨c, hc⟩ := hunk
    have hnu : ¬ (t1.2.2 ++ t2.2.2 ++ t3.2.2 ++ t4.2.2 ++ t5.2.2 ++ t6.2.2) = [] :=
      fun hnil => (hUnk.mp hnil c) hc
    rw [if_neg (not_not_intro hi)]
    by_cases hmet : (t1.1 ++ t2.1 ++ t3.1 ++ t4.1 ++ t5.1 ++ t6.1) = []
    · rw [if_pos ⟨hnu, hmet⟩]
    · rw [if_neg (fun hcon => hmet hcon.2), if_pos hnu]
  · by_cases hi : (t1.2.1 ++ t2.2.1 ++ t3.2.1 ++ t4.2.1 ++ t5.2.1 ++ t6.2.1) = []
    · by_cases hu : (t1.2.2 ++ t2.2.2 ++ t3.2.2 ++ t4.2.2 ++ t5.2.2 ++ t6.2.2) = []
      · rw [if_neg (not_not_intro hi), if_neg (fun hcon => hcon.1 hu),
            if_neg (not_not_intro hu)]
        constructor
        · intro _
          exact hMet.mp ⟨hi, hu⟩
        · intro _
          rfl
      · rw [if_neg (not_not_intro hi)]
        by_cases hmet : (t1.1 ++ t2.1 ++ t3.1 ++ t4.1 ++ t5.1 ++ t6.1) = []
        · rw [if_pos ⟨hu, hmet⟩]
          constructor
          · intro hcon
            exact absurd hcon (by decide)
          · intro hall
            exact absurd (hMet.mpr hall).2 hu
        · rw [if_neg (fun hcon => hmet hcon.2), if_pos hu]
          constructor
          · intro hcon
            exact absurd hcon (by decide)
          · intro hall
            exact absurd (hMet.mpr hall).2 hu
    · rw [if_pos hi]
      constructor
      · intro hcon
        exact absurd hcon (by decide)
      · intro hall
        exact absurd (hMet.mpr hall).1 hi

theorem C4_eligibility_trichotomy_witness :
    ∃ res, checkSchemeEligibility
        { rulesNone with age_min := some 18, income_max := some 100000 }
        { age := some 30, income := some 200000, gender := Option.none,
          category := Option.none, bpl := Option.none } = some res
      ∧ res.status = "not_eligible" := by
  refine ⟨{ status := "not_eligible", met_criteria := ["age_min met"],
            issues := ["income_max failed"], unknown_criteria := [] }, by decide, ?_⟩
  exact (C4_eligibility_trichotomy
    { rulesNone with age_min := some 18, income_max := some 100000 }
    { age := some 30, income := some 200000, gender := Option.none,
      category := Option.none, bpl := Option.none } _ (by decide)).1
    ⟨Criterion.incomeMax, by exact ⟨by decide, 200000, rfl, 100000, by decide, by decide⟩⟩
